import Mathlib

/-!
Verification of the Bernard OpenAI proxy gateway (`src/api/main.py`) against
its natural-language specification.

The embedding models the FastAPI handlers as pure Lean functions.  Network
effects are abstracted as explicit inputs: a backend call's outcome is an
`Except String HTTPResponse` (the `.error` case is a transport-level
exception carrying `str(e)`), a health-probe environment is a function from
probe URL and timeout to such an outcome, and a streaming backend is a finite
list of byte chunks.  JSON values follow Python semantics (`dict.get`,
truthiness) via the `JValue` type.
-/

namespace Bernard

/-- A Python/JSON value, as produced by `request.json()` / `resp.json()`. -/
inductive JValue where
  | null
  | bool (b : Bool)
  | num (n : Int)
  | str (s : String)
  | arr (xs : List JValue)
  | obj (kvs : List (String × JValue))

/-- Python truthiness (`bool(v)`) on a JSON value: `None`, `False`, `0`, the
empty string, the empty list and the empty dict are falsy; everything else is
truthy.  Used by `if not stream_requested` in `chat_completions`. -/
def JValue.truthy : JValue → Bool
  | .null => false
  | .bool b => b
  | .num n => n != 0
  | .str s => s != ""
  | .arr xs => !xs.isEmpty
  | .obj kvs => !kvs.isEmpty

/-- Python `dict.get(key)` with no default: first binding of the key in an
object (keys of a parsed JSON object are unique), `none` otherwise. -/
def JValue.get : JValue → String → Option JValue
  | .obj kvs, k => lookupAux kvs k
  | _, _ => none
where
  lookupAux : List (String × JValue) → String → Option JValue
    | [], _ => none
    | p :: rest, k => if p.1 = k then some p.2 else lookupAux rest k

/-- A complete HTTP response from a backend: status code, headers in order,
and body bytes (modelled as a string of bytes). -/
structure HTTPResponse where
  status : Nat
  headers : List (String × String)
  body : String
deriving Repr, DecidableEq

/-- What a gateway handler returns to the caller: a relayed complete
response (`fastapi.Response`), a raised `HTTPException`, or a
`StreamingResponse` with a media type and the chunks it will emit. -/
inductive GatewayResponse where
  | response (status : Nat) (headers : List (String × String)) (body : String)
  | httpError (status : Nat) (detail : String)
  | streaming (mediaType : String) (chunks : List String)
deriving Repr, DecidableEq

/-- Whether a gateway response is a streaming relay. -/
def GatewayResponse.isStreaming : GatewayResponse → Bool
  | .streaming _ _ => true
  | _ => false

/-! ## Configuration (`src/api/services/config.py`, default values) -/

def BERNARD_URL : String := "http://localhost:3000"

def VLLM_URL : String := "http://localhost:8001"

def WHISPER_URL : String := "http://localhost:8002"

def KOKORO_URL : String := "http://localhost:8003"

/-! ## Health check (`health_check`, `src/api/main.py` lines 31-58)

A probe environment `env : String → Nat → Except String Nat` gives, for a URL
and a timeout in seconds, either the HTTP status code the probe observed
(`.ok`) or the transport-level exception it raised (`.error str(e)`).
`httpx.get` does not raise on non-2xx statuses, so a 404 is an `.ok 404`. -/

/-- Per-backend health classification stored in `health["services"]`. -/
inductive ServiceHealth where
  | up
  | error
  | down (reason : String)
deriving Repr, DecidableEq

/-- Whether a per-backend record is the `down (reason)` case. -/
def ServiceHealth.isDown : ServiceHealth → Bool
  | .down _ => true
  | _ => false

/-- The primary probe URL: `f"\x7burl\x7d/api/status"` for bernard,
`f"\x7burl\x7d/health"` for every other backend (line 45). -/
def checkUrl (name url : String) : String :=
  if name = "bernard" then url ++ "/api/status" else url ++ "/health"

/-- The aggregate health report `\x7b"status": ..., "services": ...\x7d`. -/
structure HealthReport where
  status : String
  services : List (String × ServiceHealth)
deriving Repr, DecidableEq

/-- One backend's classification (lines 42-52 without the aggregate-status
side effect): probe the primary URL with a 2s timeout; only if that raises,
probe the root URL with a 2s timeout; a status below 500 is `up`, a 5xx is
`error`; if both probes raise, the record is `down` with the second
exception's description. -/
def backendProbe (env : String → Nat → Except String Nat)
    (name url : String) : ServiceHealth :=
  match env (checkUrl name url) 2 with
  | .ok s => if s < 500 then .up else .error
  | .error _ =>
    match env url 2 with
    | .ok s => if s < 500 then .up else .error
    | .error e => .down e

/-- One iteration of the `for name, url in [...]` loop (lines 41-56): the
inner try/except probes primary then root; the outer except catches a
fallback-probe exception, records `down (str(e))` and sets the aggregate
status to `"degraded"`. -/
def healthStep (env : String → Nat → Except String Nat)
    (h : HealthReport) (b : String × String) : HealthReport :=
  match env (checkUrl b.1 b.2) 2 with
  | .ok s =>
      HealthReport.mk h.status
        (h.services ++ [(b.1, if s < 500 then ServiceHealth.up else .error)])
  | .error _ =>
    match env b.2 2 with
    | .ok s =>
        HealthReport.mk h.status
          (h.services ++ [(b.1, if s < 500 then ServiceHealth.up else .error)])
    | .error e =>
        HealthReport.mk "degraded" (h.services ++ [(b.1, .down e)])

/-- The registered backends, in loop order (lines 36-41). -/
def backends : List (String × String) :=
  [("bernard", BERNARD_URL), ("vllm", VLLM_URL),
   ("whisper", WHISPER_URL), ("kokoro", KOKORO_URL)]

/-- `GET /health` (lines 31-58): starts from `\x7b"status": "ok",
"services": \x7b\x7d\x7d` and folds `healthStep` over the backends. -/
def health_check (env : String → Nat → Except String Nat) : HealthReport :=
  backends.foldl (healthStep env) (HealthReport.mk "ok" [])

/-! ## Model aggregation (`list_models`, `src/api/main.py` lines 60-95) -/

/-- How one backend's catalog query resolved: a transport-level exception
from `httpx.get`, or an HTTP response whose body either parsed as JSON
(`.ok`) or made `resp.json()` raise (`.error`, a malformed body). -/
inductive CatalogOutcome where
  | transportError (msg : String)
  | response (status : Nat) (body : Except String JValue)

/-- Whether a catalog query failed in the spec's sense: transport error,
non-200 status, or malformed body. -/
def CatalogOutcome.failed : CatalogOutcome → Bool
  | .transportError _ => true
  | .response status body =>
    status != 200 || (match body with | .error _ => true | .ok _ => false)

/-- The entries one backend contributes (the body of each `try` block at
lines 66-71 and 74-79): on a 200 response whose body parsed,
`models.extend(resp.json().get("data", []))`.  `.get` exists only on a dict
(anything else raises `AttributeError`, caught: zero entries); `extend`
iterates its argument, so a string data value contributes its characters and
a dict its keys, while a non-iterable raises `TypeError` (caught: zero
entries).  Any failure contributes zero entries. -/
def catalogEntries : CatalogOutcome → List JValue
  | .transportError _ => []
  | .response status body =>
    if status = 200 then
      match body with
      | .error _ => []
      | .ok (.obj kvs) =>
        match (JValue.obj kvs).get "data" with
        | some (.arr xs) => xs
        | some (.str s) => s.data.map (fun c => JValue.str (String.mk [c]))
        | some (.obj kvs2) => kvs2.map (fun kv => JValue.str kv.1)
        | some _ => []
        | none => []
      | .ok _ => []
    else []

/-- The first synthetic entry appended at lines 82-87. -/
def whisperModel : JValue :=
  .obj [("id", .str "whisper-1"), ("object", .str "model"),
        ("created", .num 1677649963), ("owned_by", .str "openai")]

/-- The second synthetic entry appended at lines 88-93. -/
def kokoroModel : JValue :=
  .obj [("id", .str "kokoro-v1.0"), ("object", .str "model"),
        ("created", .num 1677649963), ("owned_by", .str "kokoro")]

/-- `GET /v1/models` (lines 60-95): `models` starts empty, is extended with
the Bernard catalog, then the vLLM catalog, then the two synthetic audio
entries, and is returned as `\x7b"object": "list", "data": models\x7d`. -/
def list_models (bernardOut vllmOut : CatalogOutcome) : JValue :=
  let models := catalogEntries bernardOut
  let models := models ++ catalogEntries vllmOut
  let models := models ++ [whisperModel]
  let models := models ++ [kokoroModel]
  .obj [("object", .str "list"), ("data", .arr models)]

/-! ## Buffered proxy relay (shared shape of lines 112-122, 139-148,
166-175, 184-194) -/

/-- The body of each buffered proxy handler: on a backend response, return a
`Response` copying its content, status code and headers; on a transport
exception, raise `HTTPException(status_code=500, detail=str(e))`. -/
def relayBuffered (outcome : Except String HTTPResponse) : GatewayResponse :=
  match outcome with
  | .ok resp => .response resp.status resp.headers resp.body
  | .error e => .httpError 500 e

/-- The buffered proxy body over the trace of outcomes the backend would
return to successive call attempts: the handler's single `try` block makes
one call, consuming the head of the trace; the tail is returned untouched,
which is what a retry would have consumed.  The empty-trace default is
unreachable in use (every theorem supplies a nonempty trace). -/
def relayBufferedTrace (attempts : List (Except String HTTPResponse)) :
    GatewayResponse × List (Except String HTTPResponse) :=
  match attempts with
  | [] => (.httpError 500 "ConnectError", [])
  | a :: rest => (relayBuffered a, rest)

/-! ## Chat completions (`chat_completions`, lines 97-130) -/

/-- The streaming generator (lines 125-128): iterate the backend's byte
chunks with `aiter_bytes` and yield each one as received. -/
def stream_generator : List String → List String
  | [] => []
  | chunk :: rest => chunk :: stream_generator rest

/-- `POST /v1/chat/completions` (lines 97-130).  `stream_requested` is
`body.get("stream", False)`; `if not stream_requested` uses Python
truthiness.  Buffered mode posts once and relays the complete response
(or maps a transport exception to a 500); streaming mode returns
`StreamingResponse(stream_generator(), media_type="text/event-stream")`,
ignoring the headers the backend stream declared (`streamHeaders`). -/
def chat_completions (body : JValue) (backendCall : Except String HTTPResponse)
    (streamHeaders : List (String × String)) (streamChunks : List String) :
    GatewayResponse :=
  let stream_requested := (body.get "stream").getD (JValue.bool false)
  if !stream_requested.truthy then
    relayBuffered backendCall
  else
    .streaming "text/event-stream" (stream_generator streamChunks)

/-- `POST /v1/embeddings` (lines 132-148): a buffered relay of the vLLM
backend's response. -/
def embeddings (body : JValue) (backendCall : Except String HTTPResponse) :
    GatewayResponse :=
  relayBuffered backendCall

/-- `POST /v1/audio/speech` (lines 177-194): a buffered relay of the Kokoro
backend's response. -/
def speech (body : JValue) (backendCall : Except String HTTPResponse) :
    GatewayResponse :=
  relayBuffered backendCall

/-! ## Transcriptions (`transcriptions`, lines 150-175) -/

/-- One part of the inbound multipart form: an uploaded file (it has a
`filename`) or a scalar field. -/
inductive FormValue where
  | file (filename : String) (content : String) (contentType : String)
  | scalar (value : String)
deriving Repr, DecidableEq

/-- Whether a form part is a scalar field. -/
def FormValue.isScalar : FormValue → Bool
  | .scalar _ => true
  | _ => false

/-- Whether a form part is a file upload. -/
def FormValue.isFile : FormValue → Bool
  | .file _ _ _ => true
  | _ => false

/-- The outbound request's `files` and `data` dicts (lines 157-163). -/
structure OutboundMultipart where
  files : List (String × (String × String × String))
  data : List (String × String)
deriving Repr, DecidableEq

/-- Python dict assignment `d[k] = v` on a dict modelled as an association
list: an existing key is updated in place, a new key is appended. -/
def dictInsert {α : Type} : List (String × α) → String → α → List (String × α)
  | [], k, v => [(k, v)]
  | p :: rest, k, v =>
    if p.1 = k then (k, v) :: rest else p :: dictInsert rest k v

/-- One iteration of the `for key, value in form_data.items()` loop (lines
159-163): a part with a `filename` goes into `files` as
`(filename, content, content_type)`, anything else into `data`. -/
def transcriptionStep (acc : OutboundMultipart) (item : String × FormValue) :
    OutboundMultipart :=
  match item.2 with
  | .file fn c ct =>
      OutboundMultipart.mk (dictInsert acc.files item.1 (fn, c, ct)) acc.data
  | .scalar s =>
      OutboundMultipart.mk acc.files (dictInsert acc.data item.1 s)

/-- The outbound multipart request built from the inbound form (lines
157-163): both dicts start empty and the loop distributes each part. -/
def transcriptions_outbound (form : List (String × FormValue)) :
    OutboundMultipart :=
  form.foldl transcriptionStep (OutboundMultipart.mk [] [])

/-- `POST /v1/audio/transcriptions` (lines 150-175): decompose the form,
post the rebuilt multipart to the Whisper backend (modelled as a function of
the outbound request), and relay the response buffered. -/
def transcriptions (form : List (String × FormValue))
    (backend : OutboundMultipart → Except String HTTPResponse) :
    GatewayResponse :=
  relayBuffered (backend (transcriptions_outbound form))

/-- Whether an association list binds a key. -/
def hasKey {α : Type} (d : List (String × α)) (k : String) : Bool :=
  d.any (fun p => p.1 == k)

/-! ## Helper lemmas -/

/-- The streaming generator forwards exactly the backend's chunk list. -/
lemma stream_generator_eq : ∀ chunks : List String,
    stream_generator chunks = chunks
  | [] => rfl
  | chunk :: rest => by rw [stream_generator, stream_generator_eq rest]

/-- A buffered relay never produces a streaming response. -/
lemma relayBuffered_not_streaming (o : Except String HTTPResponse) :
    (relayBuffered o).isStreaming = false := by
  cases o <;> rfl

/-- The streaming decision of `chat_completions` is exactly the Python
truthiness of `body.get("stream", False)`. -/
lemma isStreaming_chat (body : JValue) (bc : Except String HTTPResponse)
    (hs : List (String × String)) (ch : List String) :
    (chat_completions body bc hs ch).isStreaming
      = ((body.get "stream").getD (JValue.bool false)).truthy := by
  unfold chat_completions
  cases h : ((body.get "stream").getD (JValue.bool false)).truthy with
  | false => simp [h, relayBuffered_not_streaming]
  | true => simp [h, GatewayResponse.isStreaming]

/-! ## Claim theorems -/

/-- C3: every non-streaming proxy call (chat with stream absent/false,
embeddings, transcriptions, speech) whose backend produced a response
relays body, status code and headers byte-identically, including non-2xx
responses: a backend 503 with body `\x7b"error":"overloaded"\x7d` comes back
as that exact 503 response, never as a gateway-internal 500. -/
theorem C3_buffered_relay_verbatim (r : HTTPResponse) (body : JValue)
    (hs : List (String × String)) (ch : List String)
    (form : List (String × FormValue)) :
    (((body.get "stream").getD (JValue.bool false)).truthy = false →
       chat_completions body (.ok r) hs ch
         = .response r.status r.headers r.body) ∧
    embeddings body (.ok r) = .response r.status r.headers r.body ∧
    transcriptions form (fun _ => .ok r)
      = .response r.status r.headers r.body ∧
    speech body (.ok r) = .response r.status r.headers r.body ∧
    embeddings body
        (.ok (HTTPResponse.mk 503 r.headers "\x7b\"error\":\"overloaded\"\x7d"))
      = .response 503 r.headers "\x7b\"error\":\"overloaded\"\x7d" ∧
    (∀ d, GatewayResponse.response 503 r.headers "\x7b\"error\":\"overloaded\"\x7d"
       ≠ .httpError 500 d) := by
  refine ⟨fun h => ?_, rfl, rfl, rfl, rfl, fun d => by simp⟩
  simp [chat_completions, h, relayBuffered]

/-- Witness for C3 at a concrete buffered chat call. -/
theorem C3_witness :
    chat_completions (JValue.obj [("model", JValue.str "m")])
        (.ok (HTTPResponse.mk 200 [("content-type", "application/json")] "hi"))
        [] []
      = .response 200 [("content-type", "application/json")] "hi" :=
  (C3_buffered_relay_verbatim
      (HTTPResponse.mk 200 [("content-type", "application/json")] "hi")
      (JValue.obj [("model", JValue.str "m")]) [] [] []).1 rfl

/-- C4: a streaming chat relay forwards the backend's chunk sequence
unchanged — same chunks, same order, nothing dropped or duplicated — so the
concatenation of the forwarded bytes equals the concatenation of the
backend's chunks. -/
theorem C4_stream_relay_preserves_chunks (body : JValue)
    (bc : Except String HTTPResponse) (hs : List (String × String))
    (chunks : List String)
    (h : ((body.get "stream").getD (JValue.bool false)).truthy = true) :
    chat_completions body bc hs chunks
      = .streaming "text/event-stream" (stream_generator chunks) ∧
    stream_generator chunks = chunks ∧
    String.join (stream_generator chunks) = String.join chunks := by
  refine ⟨?_, stream_generator_eq chunks, by rw [stream_generator_eq]⟩
  simp [chat_completions, h]

/-- Witness for C4 at a concrete streaming request with two chunks. -/
theorem C4_witness :
    chat_completions (JValue.obj [("stream", JValue.bool true)])
        (.error "unused") [] ["data: a\n\n", "data: b\n\n"]
      = .streaming "text/event-stream" ["data: a\n\n", "data: b\n\n"] := by
  have h := C4_stream_relay_preserves_chunks
      (JValue.obj [("stream", JValue.bool true)]) (.error "unused") []
      ["data: a\n\n", "data: b\n\n"] rfl
  rw [h.1, h.2.1]

/-- C5: a chat request with the stream flag absent or falsy is served in
buffered mode — the handler's value is the relay of the single complete
upstream response, never a streaming response — while a truthy flag opens a
streaming relay whose media type is fixed to `text/event-stream` no matter
which headers the backend stream declared. -/
theorem C5_buffered_or_stream_decision (body : JValue)
    (bc : Except String HTTPResponse) (hs : List (String × String))
    (ch : List String) :
    (((body.get "stream").getD (JValue.bool false)).truthy = false →
       chat_completions body bc hs ch = relayBuffered bc ∧
       (chat_completions body bc hs ch).isStreaming = false) ∧
    (((body.get "stream").getD (JValue.bool false)).truthy = true →
       chat_completions body bc hs ch
         = .streaming "text/event-stream" (stream_generator ch)) := by
  constructor
  · intro h
    refine ⟨by simp [chat_completions, h], ?_⟩
    rw [isStreaming_chat, h]
  · intro h
    simp [chat_completions, h]

/-- Witness for C5: an absent flag buffers, an explicit `true` streams. -/
theorem C5_witness :
    chat_completions (JValue.obj []) (.ok (HTTPResponse.mk 200 [] "ok")) [] []
      = relayBuffered (.ok (HTTPResponse.mk 200 [] "ok")) ∧
    chat_completions (JValue.obj [("stream", JValue.bool true)])
        (.ok (HTTPResponse.mk 200 [] "ok")) [("content-type", "text/plain")] []
      = .streaming "text/event-stream" (stream_generator []) :=
  ⟨((C5_buffered_or_stream_decision (JValue.obj [])
      (.ok (HTTPResponse.mk 200 [] "ok")) [] []).1 rfl).1,
   (C5_buffered_or_stream_decision (JValue.obj [("stream", JValue.bool true)])
      (.ok (HTTPResponse.mk 200 [] "ok")) [("content-type", "text/plain")] []).2 rfl⟩

/-- C7: a transport-level exception during any proxying call (chat in
buffered mode, embeddings, transcriptions, speech) surfaces as the uniform
`HTTPException(500, str(e))`, and the backend call is attempted exactly
once: of a trace of outcomes for successive attempts, only the head is
consumed and the rest is returned untouched. -/
theorem C7_transport_error_uniform_500 (e : String) (body : JValue)
    (hs : List (String × String)) (ch : List String)
    (form : List (String × FormValue))
    (rest : List (Except String HTTPResponse)) :
    (((body.get "stream").getD (JValue.bool false)).truthy = false →
       chat_completions body (.error e) hs ch = .httpError 500 e) ∧
    embeddings body (.error e) = .httpError 500 e ∧
    transcriptions form (fun _ => .error e) = .httpError 500 e ∧
    speech body (.error e) = .httpError 500 e ∧
    relayBufferedTrace (Except.error e :: rest) = (.httpError 500 e, rest) := by
  exact ⟨fun h => by simp [chat_completions, h, relayBuffered],
         rfl, rfl, rfl, rfl⟩

/-- Witness for C7 at a concrete unreachable-backend chat call. -/
theorem C7_witness :
    chat_completions (JValue.obj [("stream", JValue.bool false)])
        (.error "ConnectError: connection refused") [] []
      = .httpError 500 "ConnectError: connection refused" :=
  (C7_transport_error_uniform_500 "ConnectError: connection refused"
      (JValue.obj [("stream", JValue.bool false)]) [] [] [] []).1 rfl

/-- C10: the streaming-vs-buffered decision is Python truthiness of the
body's `stream` value, not equality with `True`: the string `"false"`, the
number 1 and a non-empty object all stream; `False`, 0, `null`, the empty
string and an absent key all buffer. -/
theorem C10_stream_decision_is_truthiness (body : JValue)
    (bc : Except String HTTPResponse) (hs : List (String × String))
    (ch : List String) :
    (chat_completions body bc hs ch).isStreaming
      = ((body.get "stream").getD (JValue.bool false)).truthy ∧
    (chat_completions (.obj [("stream", .str "false")]) bc hs ch).isStreaming
      = true ∧
    (chat_completions (.obj [("stream", .num 1)]) bc hs ch).isStreaming
      = true ∧
    (chat_completions (.obj [("stream", .obj [("a", .null)])]) bc hs ch).isStreaming
      = true ∧
    (chat_completions (.obj [("stream", .bool false)]) bc hs ch).isStreaming
      = false ∧
    (chat_completions (.obj [("stream", .num 0)]) bc hs ch).isStreaming
      = false ∧
    (chat_completions (.obj [("stream", .null)]) bc hs ch).isStreaming
      = false ∧
    (chat_completions (.obj [("stream", .str "")]) bc hs ch).isStreaming
      = false ∧
    (chat_completions (.obj [("model", .str "m")]) bc hs ch).isStreaming
      = false := by
  refine ⟨isStreaming_chat body bc hs ch, ?_, ?_, ?_, ?_, ?_, ?_, ?_, ?_⟩
  all_goals rw [isStreaming_chat]
  all_goals rfl

/-- The `data` field of the aggregated model list is the chat backend's
entries, then the embeddings backend's entries, then the two synthetic
entries, in that order. -/
lemma list_models_data (b v : CatalogOutcome) :
    (list_models b v).get "data"
      = some (.arr (catalogEntries b ++ catalogEntries v
          ++ [whisperModel, kokoroModel])) := by
  simp [list_models, JValue.get, JValue.get.lookupAux]

/-- C2: `GET /v1/models` returns the chat backend's entries in order, then
the embeddings backend's entries in order, then `whisper-1` and
`kokoro-v1.0`; chat returning `[A, B]` and embeddings `[C]` yields exactly
`[A, B, C, whisper-1, kokoro-v1.0]`, and an unreachable chat backend yields
exactly `[C, whisper-1, kokoro-v1.0]`. -/
theorem C2_model_aggregation_order (A B C : JValue) (e : String)
    (b v : CatalogOutcome) :
    (list_models b v).get "data"
      = some (.arr (catalogEntries b ++ catalogEntries v
          ++ [whisperModel, kokoroModel])) ∧
    (list_models (.response 200 (.ok (.obj [("data", .arr [A, B])])))
        (.response 200 (.ok (.obj [("data", .arr [C])])))).get "data"
      = some (.arr [A, B, C, whisperModel, kokoroModel]) ∧
    (list_models (.transportError e)
        (.response 200 (.ok (.obj [("data", .arr [C])])))).get "data"
      = some (.arr [C, whisperModel, kokoroModel]) := by
  refine ⟨list_models_data b v, ?_, ?_⟩ <;>
    rw [list_models_data] <;>
      simp [catalogEntries, JValue.get, JValue.get.lookupAux]

/-- C8: `GET /v1/models` never fails: a failed catalog query (transport
error, non-200 status, or malformed body) contributes zero entries from
that backend only, and the result is always the list object whose data ends
with the two synthetic entries. -/
theorem C8_models_tolerate_backend_failure (b v : CatalogOutcome) :
    (b.failed = true → catalogEntries b = []) ∧
    (v.failed = true → catalogEntries v = []) ∧
    ∃ ms, list_models b v = .obj [("object", .str "list"), ("data", .arr ms)]
      ∧ ∃ pre, ms = pre ++ [whisperModel, kokoroModel] := by
  have hfail : ∀ o : CatalogOutcome, o.failed = true → catalogEntries o = [] := by
    intro o ho
    rcases o with msg | ⟨s, body⟩
    · rfl
    · by_cases hs : s = 200
      · subst hs
        simp only [CatalogOutcome.failed, bne_self_eq_false, Bool.false_or] at ho
        cases body with
        | ok w => simp at ho
        | error m => simp [catalogEntries]
      · simp [catalogEntries, hs]
  refine ⟨hfail b, hfail v, ?_⟩
  refine ⟨catalogEntries b ++ catalogEntries v ++ [whisperModel] ++ [kokoroModel],
    ?_, catalogEntries b ++ catalogEntries v, by simp⟩
  simp [list_models]

/-- Witness for C8: an unreachable chat backend and a 5xx embeddings
backend each contribute nothing, and the synthetic entries remain. -/
theorem C8_witness :
    catalogEntries (.transportError "ConnectError: refused") = [] ∧
    catalogEntries (.response 503 (.ok .null)) = [] ∧
    ∃ ms, list_models (.transportError "ConnectError: refused")
        (.response 503 (.ok .null))
        = .obj [("object", .str "list"), ("data", .arr ms)]
      ∧ ∃ pre, ms = pre ++ [whisperModel, kokoroModel] := by
  have h := C8_models_tolerate_backend_failure
      (.transportError "ConnectError: refused") (.response 503 (.ok .null))
  exact ⟨h.1 rfl, h.2.1 rfl, h.2.2⟩

/-- Dict assignment binds its key and keeps every other binding. -/
lemma hasKey_dictInsert {α : Type} (d : List (String × α)) (k k' : String)
    (v : α) :
    hasKey (dictInsert d k v) k' = (hasKey d k' || k == k') := by
  induction d with
  | nil => simp [dictInsert, hasKey]
  | cons p rest ih =>
    simp only [dictInsert, hasKey, List.any_cons] at ih ⊢
    by_cases hp : p.1 = k
    · rw [if_pos hp, List.any_cons]
      cases hk : (k == k') with
      | true => simp [hk]
      | false => simp [hk, hp]
    · rw [if_neg hp, List.any_cons, ih, Bool.or_assoc]

/-- The outbound `data` dict binds a key exactly when some scalar form part
carries that key, whatever the accumulator already held. -/
lemma outbound_data_hasKey (form : List (String × FormValue))
    (acc : OutboundMultipart) (k : String) :
    hasKey (form.foldl transcriptionStep acc).data k
      = (hasKey acc.data k
          || form.any (fun it => it.1 == k && it.2.isScalar)) := by
  induction form generalizing acc with
  | nil => simp
  | cons it rest ih =>
    rw [List.foldl_cons, ih]
    rcases it with ⟨key, val⟩
    cases val with
    | file fn c ct => simp [transcriptionStep, FormValue.isScalar]
    | scalar s =>
      simp [transcriptionStep, FormValue.isScalar, hasKey_dictInsert,
        Bool.or_assoc]

/-- The outbound `files` dict binds a key exactly when some file form part
carries that key, whatever the accumulator already held. -/
lemma outbound_files_hasKey (form : List (String × FormValue))
    (acc : OutboundMultipart) (k : String) :
    hasKey (form.foldl transcriptionStep acc).files k
      = (hasKey acc.files k
          || form.any (fun it => it.1 == k && it.2.isFile)) := by
  induction form generalizing acc with
  | nil => simp
  | cons it rest ih =>
    rw [List.foldl_cons, ih]
    rcases it with ⟨key, val⟩
    cases val with
    | scalar s => simp [transcriptionStep, FormValue.isFile]
    | file fn c ct =>
      simp [transcriptionStep, FormValue.isFile, hasKey_dictInsert,
        Bool.or_assoc]

/-- C9: the outbound multipart to the transcription backend contains
exactly the inbound form's parts: its `data` dict binds a key iff some
scalar field of the form carries it (so unrecognized fields are forwarded),
its `files` dict binds a key iff some file part carries it, and a form with
no `language` field produces an outbound request with no language binding
at all. -/
theorem C9_multipart_fields_preserved (form : List (String × FormValue))
    (k : String) :
    hasKey (transcriptions_outbound form).data k
      = form.any (fun it => it.1 == k && it.2.isScalar) ∧
    hasKey (transcriptions_outbound form).files k
      = form.any (fun it => it.1 == k && it.2.isFile) ∧
    (form.all (fun it => it.1 != "language") = true →
       hasKey (transcriptions_outbound form).data "language" = false ∧
       hasKey (transcriptions_outbound form).files "language" = false) := by
  have hdata : ∀ k', hasKey (transcriptions_outbound form).data k'
      = form.any (fun it => it.1 == k' && it.2.isScalar) := by
    intro k'
    rw [transcriptions_outbound, outbound_data_hasKey]
    simp [hasKey]
  have hfiles : ∀ k', hasKey (transcriptions_outbound form).files k'
      = form.any (fun it => it.1 == k' && it.2.isFile) := by
    intro k'
    rw [transcriptions_outbound, outbound_files_hasKey]
    simp [hasKey]
  refine ⟨hdata k, hfiles k, fun hall => ⟨?_, ?_⟩⟩ <;>
    [rw [hdata]; rw [hfiles]] <;>
    · simp only [List.all_eq_true, bne_iff_ne, ne_eq] at hall
      simp only [List.any_eq_false]
      intro it hit
      simp [hall it hit]

/-- Witness for C9: a form with a file part and a `model` field but no
`language` field yields an outbound request that binds `model` in `data`,
`file` in `files`, and `language` nowhere. -/
theorem C9_witness :
    hasKey (transcriptions_outbound
        [("file", .file "a.wav" "RIFF" "audio/wav"),
         ("model", .scalar "whisper-1")]).data "language" = false ∧
    hasKey (transcriptions_outbound
        [("file", .file "a.wav" "RIFF" "audio/wav"),
         ("model", .scalar "whisper-1")]).files "language" = false :=
  (C9_multipart_fields_preserved
      [("file", .file "a.wav" "RIFF" "audio/wav"),
       ("model", .scalar "whisper-1")] "model").2.2 (by decide)

/-- A health-check loop iteration appends exactly the backend's probe
classification to the services map. -/
lemma healthStep_services (env : String → Nat → Except String Nat)
    (h : HealthReport) (b : String × String) :
    (healthStep env h b).services
      = h.services ++ [(b.1, backendProbe env b.1 b.2)] := by
  unfold healthStep backendProbe
  cases env (checkUrl b.1 b.2) 2 with
  | ok s => rfl
  | error e1 =>
    cases env b.2 2 with
    | ok s => rfl
    | error e2 => rfl

/-- A health-check loop iteration sets the aggregate status to `degraded`
exactly when the backend's record is `down`; otherwise it leaves it
unchanged. -/
lemma healthStep_status (env : String → Nat → Except String Nat)
    (h : HealthReport) (b : String × String) :
    (healthStep env h b).status
      = (if (backendProbe env b.1 b.2).isDown then "degraded"
         else h.status) := by
  unfold healthStep backendProbe
  cases env (checkUrl b.1 b.2) 2 with
  | ok s =>
    by_cases hs : s < 500 <;> simp [hs, ServiceHealth.isDown]
  | error e1 =>
    cases env b.2 2 with
    | ok s => by_cases hs : s < 500 <;> simp [hs, ServiceHealth.isDown]
    | error e2 => simp [ServiceHealth.isDown]

/-- The services map produced by the health-check fold is the per-backend
probe classification of each registered backend, in loop order. -/
lemma health_foldl_services (env : String → Nat → Except String Nat)
    (bs : List (String × String)) (h : HealthReport) :
    (bs.foldl (healthStep env) h).services
      = h.services ++ bs.map (fun b => (b.1, backendProbe env b.1 b.2)) := by
  induction bs generalizing h with
  | nil => simp
  | cons b rest ih =>
    rw [List.foldl_cons, ih, healthStep_services, List.map_cons,
      List.append_assoc, List.singleton_append]

/-- The aggregate status after the health-check fold is `degraded` exactly
when it already was, or some processed backend's probe came back `down`. -/
lemma health_foldl_status (env : String → Nat → Except String Nat)
    (bs : List (String × String)) (h : HealthReport) :
    (bs.foldl (healthStep env) h).status = "degraded"
      ↔ (h.status = "degraded"
          ∨ ∃ b ∈ bs, (backendProbe env b.1 b.2).isDown = true) := by
  induction bs generalizing h with
  | nil => simp
  | cons b rest ih =>
    rw [List.foldl_cons, ih, healthStep_status]
    by_cases hd : (backendProbe env b.1 b.2).isDown = true
    · simp [hd]
    · simp only [Bool.not_eq_true] at hd
      simp [hd]

/-- A record is `down` exactly when it is `down r` for some reason `r`. -/
lemma isDown_iff (s : ServiceHealth) :
    s.isDown = true ↔ ∃ r, s = ServiceHealth.down r := by
  cases s <;> simp [ServiceHealth.isDown]

/-- A probe environment where the bernard status probe answers 503 and
every other probe answers 200. -/
def envC1 : String → Nat → Except String Nat :=
  fun url _t =>
    if url = "http://localhost:3000/api/status" then .ok 503 else .ok 200

/-- C1 counterexample: with the bernard probe answering 503, the bernard
record is `error` — not `up` — yet the aggregate status is `ok`, so the
claim that any non-`up` record degrades the aggregate is false on the
code. -/
theorem C1_counterexample :
    (health_check envC1).services
      = [("bernard", ServiceHealth.error), ("vllm", .up),
         ("whisper", .up), ("kokoro", .up)] ∧
    ServiceHealth.error ≠ ServiceHealth.up ∧
    (health_check envC1).status = "ok" ∧
    ("ok" : String) ≠ "degraded" := by
  refine ⟨by decide, by decide, by decide, by decide⟩

/-- C1 amended: the aggregate status of `GET /health` is `degraded` exactly
when some per-backend record is `down (reason)`; a record of `error` (a
5xx probe answer) leaves the aggregate `ok`. -/
theorem C1_amended_degraded_iff_some_down
    (env : String → Nat → Except String Nat) :
    (health_check env).status = "degraded"
      ↔ ∃ p ∈ (health_check env).services, ∃ r,
          p.2 = ServiceHealth.down r := by
  rw [health_check, health_foldl_status, health_foldl_services]
  simp only [List.nil_append, List.mem_map]
  constructor
  · rintro (hok | ⟨b, hb, hdown⟩)
    · simp at hok
    · exact ⟨(b.1, backendProbe env b.1 b.2), ⟨b, hb, rfl⟩,
        (isDown_iff _).mp hdown⟩
  · rintro ⟨p, ⟨b, hb, hpb⟩, r, hr⟩
    refine Or.inr ⟨b, hb, (isDown_iff _).mpr ⟨r, ?_⟩⟩
    rw [← hr, ← hpb]

/-- Modelled from the spec claim for comparison with `backendProbe`
(`health_check` lines 42-56): the claim reads any failure of the primary
attempt — explicitly including a non-matching path, i.e. an HTTP 404 — as
triggering the fallback root probe, whose result then classifies the
backend. -/
def backendProbeClaim (env : String → Nat → Except String Nat)
    (name url : String) : ServiceHealth :=
  match env (checkUrl name url) 2 with
  | .ok s =>
    if s = 404 then
      match env url 2 with
      | .ok t => if t < 500 then .up else .error
      | .error e => .down e
    else if s < 500 then .up else .error
  | .error _ =>
    match env url 2 with
    | .ok t => if t < 500 then .up else .error
    | .error e => .down e

/-- A probe environment where the bernard status probe answers 404 (the
path does not match) and the root probe answers 503. -/
def envC6 : String → Nat → Except String Nat :=
  fun url _t =>
    if url = "http://localhost:3000/api/status" then .ok 404 else .ok 503

/-- C6 counterexample: a 404 from the primary probe does not trigger the
fallback — the code classifies the backend `up` from the 404 alone, while
the claim's reading (fallback on a non-matching path, classified by the
root probe's 503) yields `error`. -/
theorem C6_counterexample :
    envC6 (checkUrl "bernard" BERNARD_URL) 2 = .ok 404 ∧
    envC6 BERNARD_URL 2 = .ok 503 ∧
    backendProbe envC6 "bernard" BERNARD_URL = .up ∧
    backendProbeClaim envC6 "bernard" BERNARD_URL = .error ∧
    ServiceHealth.up ≠ ServiceHealth.error := by
  refine ⟨rfl, rfl, by decide, by decide, by decide⟩

/-- C6 amended: each backend's primary status-probe URL is tried with a 2s
timeout; any HTTP status from it is final — `up` below 500 (including a 404
from a non-matching path), `error` at 5xx — and the fallback probe of the
backend's root address, with the same 2s timeout, runs only when the
primary attempt raises a transport-level exception; the record is
`down (reason)` with the fallback exception's description only when both
attempts raise.  The `/health` services map is exactly this classification
of each registered backend. -/
theorem C6_amended_probe_classification
    (env : String → Nat → Except String Nat) (name url : String) :
    (∀ s, env (checkUrl name url) 2 = .ok s →
       backendProbe env name url
         = (if s < 500 then ServiceHealth.up else .error)) ∧
    (∀ e s, env (checkUrl name url) 2 = .error e → env url 2 = .ok s →
       backendProbe env name url
         = (if s < 500 then ServiceHealth.up else .error)) ∧
    (∀ e e2, env (checkUrl name url) 2 = .error e → env url 2 = .error e2 →
       backendProbe env name url = .down e2) ∧
    (health_check env).services
      = backends.map (fun b => (b.1, backendProbe env b.1 b.2)) := by
  refine ⟨fun s hs => ?_, fun e s he hs => ?_, fun e e2 he he2 => ?_, ?_⟩
  · rw [backendProbe, hs]
  · rw [backendProbe, he, hs]
  · rw [backendProbe, he, he2]
  · rw [health_check, health_foldl_services]
    rfl

/-- A probe environment where every probe raises a connection error. -/
def envC6w : String → Nat → Except String Nat :=
  fun _url _t => .error "ConnectError: connection refused"

/-- Witness for C6 at a backend whose both probes raise: the record is
`down` with the fallback exception's description. -/
theorem C6_witness :
    backendProbe envC6w "vllm" VLLM_URL
      = .down "ConnectError: connection refused" :=
  (C6_amended_probe_classification envC6w "vllm" VLLM_URL).2.2.1
    "ConnectError: connection refused" "ConnectError: connection refused"
    rfl rfl

end Bernard


